import Mathlib

/-!
Shallow embedding of `src/Modules/api_handler.py` (pipsqueak): a client-side
WebSocket API handler with connection lifecycle, a frame-dispatch loop, a
request-correlation table, a polling wait primitive, and versioned handlers.

Python dicts decoded from JSON are modelled as association lists with
last-binding-wins lookup (matching `json.loads` overwrite semantics); Python
sets as lists up to membership; exceptions as an explicit error type; the
asyncio event loop by sequential function application (the module is
single-threaded cooperative, see spec section 5).
-/

/-- JSON values as decoded by `json.loads`. Numbers are modelled as integers
(the frames relevant here carry only integral status codes and identifiers). -/
inductive JValue where
  | null : JValue
  | bool (b : Bool) : JValue
  | num (n : Int) : JValue
  | str (s : String) : JValue
  | arr (xs : List JValue) : JValue
  | obj (kvs : List (String × JValue)) : JValue

/-- Result of a Python subscript `x[k]` on a decoded JSON value: `found` when
`x` is a dict containing `k`, `keyError` when `x` is a dict without `k`, and
`typeError` when `x` is not a dict at all (Python raises `TypeError` /
`AttributeError` there, which the handler's `except` clauses do not catch). -/
inductive LookupResult where
  | found (v : JValue) : LookupResult
  | keyError : LookupResult
  | typeError : LookupResult

/-- Last-binding-wins association-list lookup, matching `json.loads` dict
construction where a repeated key overwrites the earlier one. -/
def lookupLast (kvs : List (String × JValue)) (k : String) : Option JValue :=
  match kvs.reverse.find? (fun p => p.1 = k) with
  | some p => some p.2
  | none => none

/-- Python subscript `x[k]` on a decoded JSON value. -/
def jGet (x : JValue) (k : String) : LookupResult :=
  match x with
  | .obj kvs =>
    match lookupLast kvs k with
    | some v => .found v
    | none => .keyError
  | _ => .typeError

/-- Python dict assignment `d[k] = v` on an association list (lookup-equivalent
to CPython's in-place overwrite). -/
def setKey (kvs : List (String × JValue)) (k : String) (v : JValue) :
    List (String × JValue) :=
  kvs.filter (fun p => p.1 ≠ k) ++ [(k, v)]

/-- Python `d.pop(k)`: the value at `k` (if any) and the dict without `k`. -/
def popKey (kvs : List (String × JValue)) (k : String) :
    Option JValue × List (String × JValue) :=
  (lookupLast kvs k, kvs.filter (fun p => p.1 ≠ k))

example : jGet (.obj [("a", .num 1), ("a", .num 2)]) "a" = .found (.num 2) := rfl
example : jGet (.arr []) "a" = .typeError := rfl

/-- Request identifiers (`uuid.UUID`), modelled as their canonical 32-digit
lowercase hex form. -/
abbrev UUID := String

/-- The exceptions the module can raise, mirroring the Python classes.
`attributeError` and `typeError` are Python built-ins that escape the
handler's `except` clauses when a decoded frame has an unexpected shape. -/
inductive PyErr where
  | apiError (msg : String) : PyErr
  | notConnectedError (msg : Option String) : PyErr
  | mismatchedVersionError (handlerVer : String) (apiVer : JValue) : PyErr
  | timeoutError (msg : String) : PyErr
  | valueError (msg : String) : PyErr
  | attributeError (msg : String) : PyErr
  | typeError (msg : String) : PyErr

/-- Whether an exception is (an instance of) the `NotConnectedError` class. -/
def PyErr.isNotConnected : PyErr → Bool
  | .notConnectedError _ => true
  | _ => false

/-- An inbound WebSocket text frame, by its `json.loads` outcome: `malformed`
when parsing raises `JSONDecodeError`, `parsed v` otherwise. -/
inductive Frame where
  | malformed (raw : String) : Frame
  | parsed (v : JValue) : Frame

/-- A `websockets.WebSocketClientProtocol`: the URI it was opened with, its
`host`, and its `open` flag. -/
structure Conn where
  uri : String
  host : String
  isOpen : Bool

/-- The mutable fields of `BaseWebsocketAPIHandler`. `listenerTask` is
`none` when `_listener_task is None` and `some ()` when the dispatch-loop
task has been created (and not cancelled). -/
structure HandlerState where
  hostname : String
  token : Option String
  tls : Bool
  connection : Option Conn
  listenerTask : Option Unit
  waitingRequests : List UUID
  requestResponses : List (UUID × JValue)

/-- `__init__`: fresh handler, no connection, no task, empty tables. -/
def HandlerState.init (hostname : String) (token : Option String) (tls : Bool) :
    HandlerState :=
  { hostname := hostname, token := token, tls := tls, connection := none,
    listenerTask := none, waitingRequests := [], requestResponses := [] }

/-- The `connected` property: `self._connection is not None and
self._connection.open`. -/
def HandlerState.connected (s : HandlerState) : Bool :=
  match s.connection with
  | some c => c.isOpen
  | none => false

/-- `self._connection.host` (only consulted when a connection exists). -/
def HandlerState.connHost (s : HandlerState) : String :=
  match s.connection with
  | some c => c.host
  | none => ""

/-- Whether the dispatch-loop task is running. -/
def loopRunning (s : HandlerState) : Bool := s.listenerTask.isSome

/-- The spec's connection-state invariant: the Dispatch Loop runs iff the
state is Connected. -/
def connInvariant (s : HandlerState) : Prop := loopRunning s = s.connected

instance (s : HandlerState) : Decidable (connInvariant s) :=
  decidable_of_iff (loopRunning s = s.connected) Iff.rfl

/-- The target URI built by `connect()`: scheme from the TLS flag, optional
bearer-token query (Python truthiness: `None` and `""` both skip it). -/
def buildUri (hostname : String) (token : Option String) (tls : Bool) : String :=
  let base := (if tls then "wss://" else "ws://") ++ hostname
  match token with
  | some t => if t = "" then base else base ++ "/?bearer=" ++ t
  | none => base

/-- `connect()`, parameterized by the handler's `api_version` and the hello
frame the server sends first. Returns the state after the call together with
the exception it raised, if any (a raise leaves all mutations made so far in
place, exactly as in Python). -/
def connect (apiVersion : String) (hello : Frame) (s : HandlerState) :
    HandlerState × Option PyErr :=
  if s.connected then
    (s, some (.notConnectedError (some ("Already connected to a server: " ++ s.connHost))))
  else
    let c : Conn :=
      { uri := buildUri s.hostname s.token s.tls, host := s.hostname, isOpen := true }
    let s1 := { s with connection := some c }
    match hello with
    | .malformed _ =>
      (s1, some (.apiError "Connect message from the API could not be parsed"))
    | .parsed v =>
      match jGet v "meta" with
      | .typeError => (s1, some (.typeError "connect message is not subscriptable"))
      | .keyError => ({ s1 with listenerTask := some () }, none)
      | .found meta =>
        match jGet meta "API-Version" with
        | .typeError => (s1, some (.typeError "connect message meta is not subscriptable"))
        | .keyError => ({ s1 with listenerTask := some () }, none)
        | .found ver =>
          match ver with
          | .str vs =>
            if vs = apiVersion then ({ s1 with listenerTask := some () }, none)
            else (s1, some (.mismatchedVersionError apiVersion (.str vs)))
          | other => (s1, some (.mismatchedVersionError apiVersion other))

/-- `disconnect()`: cancel the listener task, close the socket. Note
`self._listener_task.cancel()` raises `AttributeError` when the task field is
`None` even though the socket is open (a state only a partly-failed `connect`
can produce). -/
def disconnect (s : HandlerState) : HandlerState × Option PyErr :=
  if s.connected then
    match s.listenerTask with
    | none => (s, some (.attributeError "NoneType object has no attribute cancel"))
    | some _ => ({ s with listenerTask := none, connection := none }, none)
  else (s, some (.notConnectedError none))

/-- The parameter-overwrite block of `reconnect` (lines `if hostname: ...`).
The Python guards are truthiness tests, so falsy values — `None`, `""`,
`False` — leave the corresponding field untouched. -/
def applyOverrides (hostname token : Option String) (tls : Option Bool)
    (s : HandlerState) : HandlerState :=
  let s2 := match hostname with
    | some h => if h = "" then s else { s with hostname := h }
    | none => s
  let s3 := match token with
    | some t => if t = "" then s2 else { s2 with token := some t }
    | none => s2
  match tls with
  | some b => if b then { s3 with tls := true } else s3
  | none => s3

/-- `reconnect(hostname, token, tls)`: disconnect if connected, overwrite the
connection parameters the caller supplied, reconnect. -/
def reconnect (apiVersion : String) (hello : Frame) (hostname token : Option String)
    (tls : Option Bool) (s : HandlerState) : HandlerState × Option PyErr :=
  let step1 : HandlerState × Option PyErr :=
    if s.connected then disconnect s else (s, none)
  match step1 with
  | (s1, some e) => (s1, some e)
  | (s1, none) => connect apiVersion hello (applyOverrides hostname token tls s1)

/-- Left-to-right non-overlapping replacement of `pat` by `rep`, as Python's
`str.replace` (structural recursion: the `Nat` counts pattern characters
still to be skipped after a match). -/
def replaceAux (pat rep : List Char) : List Char → Nat → List Char
  | [], _ => []
  | c :: cs, 0 =>
    if pat.isPrefixOf (c :: cs) ∧ pat.length ≠ 0 then
      rep ++ replaceAux pat rep cs (pat.length - 1)
    else c :: replaceAux pat rep cs 0
  | _ :: cs, Nat.succ k => replaceAux pat rep cs k

/-- Python `s.replace(pat, rep)`. -/
def pyReplace (s pat rep : String) : String :=
  String.mk (replaceAux pat.toList rep.toList s.toList 0)

/-- Hex digits as accepted by `int(hex, 16)` on the UUID parse path. -/
def isHexDigitChar (c : Char) : Bool :=
  c.isDigit || ('a' ≤ c && c ≤ 'f') || ('A' ≤ c && c ≤ 'F')

/-- `uuid.UUID(s)`: strip `urn:` / `uuid:` markers and surrounding braces,
drop dashes, then require exactly 32 hex digits. Returns the canonical
lowercase 32-digit form, or `none` where Python raises `ValueError`. -/
def parseUUID (s : String) : Option UUID :=
  let t := pyReplace (pyReplace s "urn:" "") "uuid:" ""
  let cs := t.toList
  let cs := cs.dropWhile (fun c => c = '{' || c = '}')
  let cs := (cs.reverse.dropWhile (fun c => c = '{' || c = '}')).reverse
  let cs := cs.filter (fun c => c ≠ '-')
  if cs.length = 32 && cs.all isHexDigitChar then
    some (String.mk (cs.map Char.toLower))
  else none

/-- `str(uuid)`: the canonical 8-4-4-4-12 dashed rendering. -/
def uuidStr (u : UUID) : String :=
  let cs := u.toList
  String.mk (cs.take 8) ++ "-" ++ String.mk ((cs.drop 8).take 4) ++ "-" ++
    String.mk ((cs.drop 12).take 4) ++ "-" ++ String.mk ((cs.drop 16).take 4) ++ "-" ++
    String.mk (cs.drop 20)

/-- The status-skip guard of `_message_handler`: a top-level `status` of
401, 403 or 500 makes the loop log and continue without correlation. -/
def isErrorStatus (data : JValue) : Bool :=
  match jGet data "status" with
  | .found (.num 401) => true
  | .found (.num 403) => true
  | .found (.num 500) => true
  | _ => false

/-- One iteration of `_message_handler` on one inbound frame, acting on the
waiting set and the response table. `.ok` covers both "filed" and "logged and
skipped"; `.error` is an exception escaping the loop body (which kills the
listener task), e.g. `data.keys()` on a frame whose JSON is not an object. -/
def handleFrame (frame : Frame) (waiting : List UUID)
    (responses : List (UUID × JValue)) :
    Except PyErr (List UUID × List (UUID × JValue)) :=
  match frame with
  | .malformed _ => .ok (waiting, responses)
  | .parsed data =>
    match data with
    | .obj _ =>
      if isErrorStatus data then .ok (waiting, responses)
      else
        match jGet data "meta" with
        | .typeError => .error (.typeError "subscript of a non-dict value")
        | .keyError => .ok (waiting, responses)
        | .found meta =>
          match jGet meta "request_id" with
          | .typeError => .error (.typeError "subscript of a non-dict meta value")
          | .keyError => .ok (waiting, responses)
          | .found (.str ridStr) =>
            match parseUUID ridStr with
            | none => .ok (waiting, responses)
            | some u =>
              if u ∈ waiting then
                .ok (waiting.filter (fun x => x ≠ u), setKey responses u data)
              else .ok (waiting, responses)
          | .found _ => .error (.attributeError "UUID applied to a non-string value")
    | _ => .error (.attributeError "keys called on a non-dict frame")

/-- The dispatch loop over a finite prefix of the inbound frame stream: runs
`handleFrame` frame after frame, stopping (task death) at the first escaped
exception. -/
def runLoop (frames : List Frame) (waiting : List UUID)
    (responses : List (UUID × JValue)) :
    Except PyErr (List UUID × List (UUID × JValue)) :=
  match frames with
  | [] => .ok (waiting, responses)
  | f :: fs =>
    match handleFrame f waiting responses with
    | .error e => .error e
    | .ok (w, r) => runLoop fs w r

/-- The `for i in range(max_wait)` poll of `_retrieve_response`: `sw i` says
whether the request is still in the waiting set at the i-th check; each true
check sleeps one 10 ms tick. Returns (sleeps performed, whether the loop
broke out before exhausting the budget). -/
def pollLoop (sw : Nat → Bool) : Nat → Nat → Nat × Bool
  | i, 0 => (i, false)
  | i, Nat.succ fuel => if sw i then pollLoop sw (i + 1) fuel else (i, true)

/-- Default `max_wait`: 600 ticks of 10 ms, i.e. 6 seconds. -/
def defaultMaxWait : Nat := 600

/-- `_retrieve_response(request_id, max_wait)` under the cooperative model
with no dispatch-loop step interleaved during the wait (the waiting set and
response table stay fixed, which is exactly the situation of an
already-filed or never-answered request). Returns the outcome, the state of
the two tables after the call, and the number of 10 ms sleeps performed. -/
def retrieveResponse (waiting : List UUID) (responses : List (UUID × JValue))
    (u : UUID) (maxWait : Nat) :
    Except PyErr JValue × (List UUID × List (UUID × JValue)) × Nat :=
  if u ∉ waiting ∧ u ∉ responses.map Prod.fst then
    (.error (.apiError ("Response " ++ uuidStr u ++ " already consumed or request never queued")),
      (waiting, responses), 0)
  else
    let p := pollLoop (fun _ => decide (u ∈ waiting)) 0 maxWait
    if p.2 then
      match lookupLast responses u with
      | some v => (.ok v, (waiting, responses.filter (fun pr => pr.1 ≠ u)), p.1)
      | none =>
        (.error (.apiError ("Response " ++ uuidStr u ++ " already consumed by something else")),
          (waiting, responses), p.1)
    else
      (.error (.timeoutError ("API took too long to respond to request " ++ uuidStr u)),
        (waiting, responses), p.1)

/-- The `uuid4()` retry loop of `_request`: draw candidates from the random
stream `gen` starting at index `i` until one collides with neither the
waiting set nor the response table; `fuel` bounds the retries (Python's
`while` is unbounded, but any draw of a fresh value terminates it). -/
def mintRequestId (gen : Nat → UUID) (waiting : List UUID)
    (responses : List (UUID × JValue)) : Nat → Nat → Option UUID
  | _, 0 => none
  | i, Nat.succ fuel =>
    if gen i ∈ waiting ∨ gen i ∈ responses.map Prod.fst then
      mintRequestId gen waiting responses (i + 1) fuel
    else some (gen i)

/-- `dict.update`: fold the right dict's bindings into the left one. -/
def updateAll (d m : List (String × JValue)) : List (String × JValue) :=
  m.foldl (fun acc kv => setKey acc kv.1 kv.2) d

/-- The envelope mutation of `_request`: stamp `str(request_id)` into
`data["meta"]` (creating the meta dict if absent). `none` models the
`TypeError` Python would raise if a `meta` key held a non-dict. -/
def stampRequestId (data : List (String × JValue)) (u : UUID) :
    Option (List (String × JValue)) :=
  match lookupLast data "meta" with
  | some (.obj mkvs) =>
    some (setKey data "meta" (.obj (setKey mkvs "request_id" (.str (uuidStr u)))))
  | some _ => none
  | none => some (setKey data "meta" (.obj [("request_id", .str (uuidStr u))]))

/-- The params preparation of `call()`: merge caller meta into
`params["meta"]`, then set `params["action"] = (endpoint, action)` (a tuple,
serialized as a two-element JSON array). -/
def callPrepare (endpoint action : String) (params meta : List (String × JValue)) :
    List (String × JValue) :=
  let p1 := match lookupLast params "meta" with
    | some (.obj mkvs) => setKey params "meta" (.obj (updateAll mkvs meta))
    | some other => setKey params "meta" other
    | none => setKey params "meta" (.obj meta)
  setKey p1 "action" (.arr [.str endpoint, .str action])

/-- The `Rescue` collaborator: a stable identifier that may be unset, and the
fixed serialization method taking the full-vs-diff flag. -/
structure Rescue where
  case_id : Option JValue
  jsonFull : JValue
  jsonDiff : JValue

/-- `rescue.json(full)`. -/
def Rescue.json (r : Rescue) (full : Bool) : JValue :=
  if full then r.jsonFull else r.jsonDiff

/-- `WebsocketAPIHandler20.api_version`. -/
def apiVersion20 : String := "v2.0"

/-- `WebsocketAPIHandler21.api_version`. -/
def apiVersion21 : String := "v2.1"

/-- `WebsocketAPIHandler20.update_rescue`, parameterized by the call engine
it delegates to (`self.call`): fails with `ValueError` before consulting the
engine when the rescue has no case id, otherwise returns the engine's reply
for `call("rescues", "update", \x7b"id": ..., "data": ...\x7d)` verbatim. -/
def updateRescue20
    (callEngine : String → String → List (String × JValue) → Except PyErr JValue)
    (rescue : Rescue) (full : Bool) : Except PyErr JValue :=
  match rescue.case_id with
  | none => .error (.valueError "Cannot send rescue without ID to the API")
  | some cid => callEngine "rescues" "update" [("id", cid), ("data", rescue.json full)]

/-- `WebsocketAPIHandler21` inherits `update_rescue` from
`WebsocketAPIHandler20` unchanged; only `api_version` differs. -/
def updateRescue21
    (callEngine : String → String → List (String × JValue) → Except PyErr JValue)
    (rescue : Rescue) (full : Bool) : Except PyErr JValue :=
  updateRescue20 callEngine rescue full

/-- The inbound-frame shapes for which each `except` clause of
`_message_handler` applies: frames that are not JSON at all, or decode to a
JSON object that either carries an error status, lacks `meta`, has an object
`meta` lacking `request_id`, or carries a string `request_id` (valid UUID or
not). Every other shape makes the loop body raise an uncaught exception. -/
def tameValue (data : JValue) : Bool :=
  match data with
  | .obj _ =>
    if isErrorStatus data then true
    else
      match jGet data "meta" with
      | .typeError => false
      | .keyError => true
      | .found meta =>
        match jGet meta "request_id" with
        | .typeError => false
        | .keyError => true
        | .found (.str _) => true
        | .found _ => false
  | _ => false

/-- `tameValue` lifted to raw frames; unparseable frames are tame (the
`JSONDecodeError` handler catches them). -/
def tameFrame : Frame → Bool
  | .malformed _ => true
  | .parsed v => tameValue v

/-- A fixed concrete request identifier used in witnesses. -/
def uuid0 : UUID := "00000000000000000000000000000000"

/-- The members of a well-formed reply frame correlating to `uuid0`. -/
def replyKvs : List (String × JValue) :=
  [("meta", .obj [("request_id", .str (uuidStr uuid0))]), ("data", .str "payload")]

/-- A well-formed reply frame correlating to `uuid0`. -/
def replyFrame0 : JValue := .obj replyKvs

/-- A concrete connected handler state with a running dispatch loop. -/
def sConn0 : HandlerState :=
  { HandlerState.init "host" none true with
      connection := some { uri := "wss://host", host := "host", isOpen := true },
      listenerTask := some () }

/-! ### Helper lemmas -/

lemma lookupLast_setKey (kvs : List (String × JValue)) (k : String) (v : JValue) :
    lookupLast (setKey kvs k v) k = some v := by
  unfold lookupLast setKey
  rw [List.reverse_append]
  simp

lemma mem_keys_setKey (kvs : List (String × JValue)) (k : String) (v : JValue) :
    k ∈ (setKey kvs k v).map Prod.fst := by
  simp [setKey]

lemma not_mem_filter_ne (l : List String) (u : String) :
    u ∉ l.filter (fun x => x ≠ u) := by
  simp [List.mem_filter]

lemma keys_filter_not_mem (r : List (String × JValue)) (u : String) :
    u ∉ (r.filter (fun pr => pr.1 ≠ u)).map Prod.fst := by
  intro hmem
  obtain ⟨p, hp, hpk⟩ := List.mem_map.mp hmem
  have h2 := (List.mem_filter.mp hp).2
  simp [hpk] at h2

lemma pollLoop_const_true (n i : Nat) : pollLoop (fun _ => true) i n = (i + n, false) := by
  induction n generalizing i with
  | zero => simp [pollLoop]
  | succ m ih =>
    simp only [pollLoop, if_pos]
    rw [ih]
    have : i + 1 + m = i + (m + 1) := by omega
    rw [this]

lemma handleFrame_files (kvs : List (String × JValue)) (meta : JValue) (rid : String)
    (u : UUID) (waiting : List UUID) (responses : List (UUID × JValue))
    (hst : isErrorStatus (.obj kvs) = false)
    (hmeta : jGet (.obj kvs) "meta" = .found meta)
    (hrid : jGet meta "request_id" = .found (.str rid))
    (hu : parseUUID rid = some u) (hw : u ∈ waiting) :
    handleFrame (.parsed (.obj kvs)) waiting responses =
      .ok (waiting.filter (fun x => x ≠ u), setKey responses u (.obj kvs)) := by
  simp only [handleFrame, hst, Bool.false_eq_true, if_false, hmeta, hrid, hu]
  rw [if_pos hw]

lemma connect_already (av : String) (hello : Frame) (s : HandlerState)
    (hc : s.connected = true) :
    connect av hello s =
      (s, some (.notConnectedError
        (some ("Already connected to a server: " ++ s.connHost)))) := by
  simp [connect, hc]

lemma connect_cases (av : String) (hello : Frame) (s : HandlerState)
    (hc : s.connected = false) :
    (connect av hello s).1.hostname = s.hostname ∧
    (connect av hello s).1.token = s.token ∧
    (connect av hello s).1.tls = s.tls ∧
    (connect av hello s).1.waitingRequests = s.waitingRequests ∧
    (connect av hello s).1.requestResponses = s.requestResponses ∧
    (connect av hello s).1.connection =
      some { uri := buildUri s.hostname s.token s.tls, host := s.hostname, isOpen := true } ∧
    ((connect av hello s).2 = none → (connect av hello s).1.listenerTask = some ()) ∧
    (∀ e, (connect av hello s).2 = some e →
      (connect av hello s).1.listenerTask = s.listenerTask ∧ e.isNotConnected = false) := by
  unfold connect
  simp only [hc, Bool.false_eq_true, if_false]
  cases hello with
  | malformed raw =>
    refine ⟨rfl, rfl, rfl, rfl, rfl, rfl, ?_, ?_⟩
    · intro h; simp at h
    · intro e he
      simp only [Option.some.injEq] at he
      subst he
      exact ⟨rfl, rfl⟩
  | parsed v =>
    dsimp only
    cases h1 : jGet v "meta" with
    | keyError =>
      refine ⟨rfl, rfl, rfl, rfl, rfl, rfl, fun _ => rfl, ?_⟩
      intro e he; simp at he
    | typeError =>
      refine ⟨rfl, rfl, rfl, rfl, rfl, rfl, ?_, ?_⟩
      · intro h; simp at h
      · intro e he
        simp only [Option.some.injEq] at he
        subst he
        exact ⟨rfl, rfl⟩
    | found meta =>
      dsimp only
      cases h2 : jGet meta "API-Version" with
      | keyError =>
        refine ⟨rfl, rfl, rfl, rfl, rfl, rfl, fun _ => rfl, ?_⟩
        intro e he; simp at he
      | typeError =>
        refine ⟨rfl, rfl, rfl, rfl, rfl, rfl, ?_, ?_⟩
        · intro h; simp at h
        · intro e he
          simp only [Option.some.injEq] at he
          subst he
          exact ⟨rfl, rfl⟩
      | found ver =>
        dsimp only
        cases ver with
        | str vs =>
          dsimp only
          by_cases h3 : vs = av
          · simp only [h3, if_pos rfl]
            refine ⟨rfl, rfl, rfl, rfl, rfl, rfl, fun _ => rfl, ?_⟩
            intro e he; simp at he
          · rw [if_neg h3]
            refine ⟨rfl, rfl, rfl, rfl, rfl, rfl, ?_, ?_⟩
            · intro h; simp at h
            · intro e he
              simp only [Option.some.injEq] at he
              subst he
              exact ⟨rfl, rfl⟩
        | null =>
          refine ⟨rfl, rfl, rfl, rfl, rfl, rfl, ?_, ?_⟩
          · intro h; simp at h
          · intro e he
            simp only [Option.some.injEq] at he
            subst he
            exact ⟨rfl, rfl⟩
        | bool b =>
          refine ⟨rfl, rfl, rfl, rfl, rfl, rfl, ?_, ?_⟩
          · intro h; simp at h
          · intro e he
            simp only [Option.some.injEq] at he
            subst he
            exact ⟨rfl, rfl⟩
        | num n =>
          refine ⟨rfl, rfl, rfl, rfl, rfl, rfl, ?_, ?_⟩
          · intro h; simp at h
          · intro e he
            simp only [Option.some.injEq] at he
            subst he
            exact ⟨rfl, rfl⟩
        | arr xs =>
          refine ⟨rfl, rfl, rfl, rfl, rfl, rfl, ?_, ?_⟩
          · intro h; simp at h
          · intro e he
            simp only [Option.some.injEq] at he
            subst he
            exact ⟨rfl, rfl⟩
        | obj kvs =>
          refine ⟨rfl, rfl, rfl, rfl, rfl, rfl, ?_, ?_⟩
          · intro h; simp at h
          · intro e he
            simp only [Option.some.injEq] at he
            subst he
            exact ⟨rfl, rfl⟩

lemma disconnect_params (s : HandlerState) :
    (disconnect s).1.hostname = s.hostname ∧ (disconnect s).1.token = s.token ∧
    (disconnect s).1.tls = s.tls := by
  unfold disconnect
  split
  · split <;> exact ⟨rfl, rfl, rfl⟩
  · exact ⟨rfl, rfl, rfl⟩

lemma disconnect_inv (s : HandlerState) (h : connInvariant s) :
    connInvariant (disconnect s).1 := by
  by_cases hc : s.connected = true
  · have hrun : loopRunning s = true := by
      unfold connInvariant at h
      rw [h, hc]
    have hl : s.listenerTask = some () := by
      unfold loopRunning at hrun
      cases hu : s.listenerTask with
      | none => rw [hu] at hrun; simp at hrun
      | some u => cases u; rfl
    unfold disconnect
    rw [if_pos hc, hl]
    rfl
  · have hc' : s.connected = false := by simpa using hc
    unfold disconnect
    rw [if_neg hc]
    exact h

lemma disconnect_disconnected (s : HandlerState) (h : connInvariant s)
    (hc : s.connected = true) :
    (disconnect s).2 = none ∧ (disconnect s).1.connected = false := by
  have hrun : loopRunning s = true := by
    unfold connInvariant at h
    rw [h, hc]
  have hl : s.listenerTask = some () := by
    unfold loopRunning at hrun
    cases hu : s.listenerTask with
    | none => rw [hu] at hrun; simp at hrun
    | some u => cases u; rfl
  unfold disconnect
  rw [if_pos hc, hl]
  exact ⟨rfl, rfl⟩

lemma connect_none_inv (av : String) (hello : Frame) (s : HandlerState)
    (h : (connect av hello s).2 = none) : connInvariant (connect av hello s).1 := by
  by_cases hc : s.connected = true
  · rw [connect_already av hello s hc] at h
    simp at h
  · have hc' : s.connected = false := by simpa using hc
    obtain ⟨-, -, -, -, -, hconn, hnone, -⟩ := connect_cases av hello s hc'
    have hl := hnone h
    unfold connInvariant loopRunning HandlerState.connected
    rw [hl, hconn]
    rfl

lemma connect_notconn_unchanged (av : String) (hello : Frame) (s : HandlerState)
    (e : PyErr) (h : (connect av hello s).2 = some e)
    (hnc : e.isNotConnected = true) : (connect av hello s).1 = s := by
  by_cases hc : s.connected = true
  · rw [connect_already av hello s hc]
  · have hc' : s.connected = false := by simpa using hc
    obtain ⟨-, -, -, -, -, -, -, hsome⟩ := connect_cases av hello s hc'
    have := (hsome e h).2
    rw [hnc] at this
    cases this

lemma applyOverrides_fields (hn tk : Option String) (tl : Option Bool)
    (s : HandlerState) :
    (applyOverrides hn tk tl s).connection = s.connection ∧
    (applyOverrides hn tk tl s).listenerTask = s.listenerTask ∧
    (applyOverrides hn tk tl s).waitingRequests = s.waitingRequests ∧
    (applyOverrides hn tk tl s).requestResponses = s.requestResponses ∧
    (applyOverrides hn tk tl s).hostname =
      (match hn with | some h => if h = "" then s.hostname else h | none => s.hostname) ∧
    (applyOverrides hn tk tl s).token =
      (match tk with | some t => if t = "" then s.token else some t | none => s.token) ∧
    (applyOverrides hn tk tl s).tls =
      (match tl with | some b => if b then true else s.tls | none => s.tls) := by
  rcases hn with - | h <;> rcases tk with - | t <;> rcases tl with - | b <;>
    simp only [applyOverrides] <;> (try split_ifs) <;> simp

lemma connected_congr (a b : HandlerState) (h : a.connection = b.connection) :
    a.connected = b.connected := by
  unfold HandlerState.connected
  rw [h]

lemma lookupLast_mem_keys (r : List (String × JValue)) (u : String) (v : JValue)
    (h : lookupLast r u = some v) : u ∈ r.map Prod.fst := by
  unfold lookupLast at h
  cases hf : r.reverse.find? (fun p => p.1 = u) with
  | none => rw [hf] at h; cases h
  | some p =>
    have hmem := List.mem_of_find?_eq_some hf
    have hpred := List.find?_some hf
    have hpu : p.1 = u := by simpa using hpred
    rw [List.mem_reverse] at hmem
    exact hpu ▸ List.mem_map_of_mem Prod.fst hmem

lemma pollLoop_const_false (m : Nat) :
    pollLoop (fun _ => false) 0 (m + 1) = (0, true) := by
  simp [pollLoop]

lemma retrieve_timeout_of_mem (waiting : List UUID) (responses : List (UUID × JValue))
    (u : UUID) (maxW : Nat) (hw : u ∈ waiting) :
    retrieveResponse waiting responses u maxW =
      (.error (.timeoutError ("API took too long to respond to request " ++ uuidStr u)),
        (waiting, responses), maxW) := by
  unfold retrieveResponse
  rw [if_neg (by simp [hw])]
  have hsw : (fun _ : Nat => decide (u ∈ waiting)) = (fun _ : Nat => true) :=
    funext fun _ => by simp [hw]
  rw [hsw, pollLoop_const_true]
  simp

lemma retrieve_unknown (waiting : List UUID) (responses : List (UUID × JValue))
    (u : UUID) (maxW : Nat) (hw : u ∉ waiting) (hr : u ∉ responses.map Prod.fst) :
    retrieveResponse waiting responses u maxW =
      (.error (.apiError ("Response " ++ uuidStr u ++ " already consumed or request never queued")),
        (waiting, responses), 0) := by
  unfold retrieveResponse
  rw [if_pos ⟨hw, hr⟩]

lemma retrieve_claims (waiting : List UUID) (responses : List (UUID × JValue))
    (u : UUID) (v : JValue) (maxW : Nat) (hw : u ∉ waiting)
    (hv : lookupLast responses u = some v) (hmw : 0 < maxW) :
    retrieveResponse waiting responses u maxW =
      (.ok v, (waiting, responses.filter (fun pr => pr.1 ≠ u)), 0) := by
  unfold retrieveResponse
  rw [if_neg (by simp [lookupLast_mem_keys responses u v hv])]
  have hsw : (fun _ : Nat => decide (u ∈ waiting)) = (fun _ : Nat => false) :=
    funext fun _ => by simp [hw]
  obtain ⟨m, rfl⟩ : ∃ m, maxW = m + 1 :=
    ⟨maxW - 1, by omega⟩
  rw [hsw, pollLoop_const_false]
  simp [hv]

lemma handleFrame_tame (f : Frame) (w : List UUID) (r : List (UUID × JValue))
    (h : tameFrame f = true) : ∃ p, handleFrame f w r = .ok p := by
  cases f with
  | malformed raw => exact ⟨(w, r), rfl⟩
  | parsed v =>
    unfold tameFrame tameValue at h
    unfold handleFrame
    cases v with
    | obj kvs =>
      dsimp only at h ⊢
      by_cases hs : isErrorStatus (.obj kvs) = true
      · rw [if_pos hs]
        exact ⟨(w, r), rfl⟩
      · rw [if_neg hs] at h ⊢
        cases h1 : jGet (.obj kvs) "meta" with
        | typeError => rw [h1] at h; cases h
        | keyError =>
          simp only [h1]
          exact ⟨(w, r), rfl⟩
        | found meta =>
          simp only [h1] at h ⊢
          cases h2 : jGet meta "request_id" with
          | typeError => rw [h2] at h; cases h
          | keyError =>
            simp only [h2]
            exact ⟨(w, r), rfl⟩
          | found rid =>
            cases rid with
            | str sstr =>
              simp only [h2]
              cases hp : parseUUID sstr with
              | none =>
                simp only [hp]
                exact ⟨(w, r), rfl⟩
              | some u =>
                simp only [hp]
                by_cases hw : u ∈ w
                · rw [if_pos hw]
                  exact ⟨_, rfl⟩
                · rw [if_neg hw]
                  exact ⟨(w, r), rfl⟩
            | null => rw [h2] at h; cases h
            | bool b => rw [h2] at h; cases h
            | num n => rw [h2] at h; cases h
            | arr xs => rw [h2] at h; cases h
            | obj kvs2 => rw [h2] at h; cases h
    | null => cases h
    | bool b => cases h
    | num n => cases h
    | str sv => cases h
    | arr xs => cases h

/-! ### Claim theorems -/

/-- C1: on a parseable hello whose metadata carries a version string
different from the handler's declared `api_version`, `connect()` fails with
`MismatchedVersionError(expected, actual)` and does not start the dispatch
loop; when the version field is entirely absent (no `meta` key, or `meta`
without `API-Version`), the mismatch is only logged: `connect()` raises
nothing and starts the dispatch loop. -/
theorem c1_connect_version_check (apiVersion : String) (s : HandlerState)
    (v : JValue) (hconn : s.connected = false) :
    (∀ meta vs, jGet v "meta" = .found meta →
      jGet meta "API-Version" = .found (.str vs) → vs ≠ apiVersion →
      (connect apiVersion (.parsed v) s).2 =
          some (.mismatchedVersionError apiVersion (.str vs)) ∧
        (connect apiVersion (.parsed v) s).1.listenerTask = s.listenerTask) ∧
    (jGet v "meta" = .keyError →
      (connect apiVersion (.parsed v) s).2 = none ∧
        (connect apiVersion (.parsed v) s).1.listenerTask = some ()) ∧
    (∀ meta, jGet v "meta" = .found meta → jGet meta "API-Version" = .keyError →
      (connect apiVersion (.parsed v) s).2 = none ∧
        (connect apiVersion (.parsed v) s).1.listenerTask = some ()) := by
  refine ⟨?_, ?_, ?_⟩
  · intro meta vs hmeta hver hne
    unfold connect
    simp only [hconn, Bool.false_eq_true, if_false]
    try dsimp only
    simp only [hmeta, hver]
    try dsimp only
    rw [if_neg hne]
    exact ⟨rfl, rfl⟩
  · intro hkey
    unfold connect
    simp only [hconn, Bool.false_eq_true, if_false]
    try dsimp only
    simp only [hkey]
    constructor <;> trivial
  · intro meta hmeta hver
    unfold connect
    simp only [hconn, Bool.false_eq_true, if_false]
    try dsimp only
    simp only [hmeta, hver]
    constructor <;> trivial

/-- C1 witness: a `"v2.1"` handler rejects a hello advertising `"v2.0"`
without starting the loop, and accepts a hello with no version field,
starting the loop. -/
theorem c1_connect_version_check_witness :
    (connect "v2.1" (.parsed (.obj [("meta", .obj [("API-Version", .str "v2.0")])]))
        (HandlerState.init "host" none true)).2 =
      some (.mismatchedVersionError "v2.1" (.str "v2.0")) ∧
    (connect "v2.1" (.parsed (.obj [("meta", .obj [("API-Version", .str "v2.0")])]))
        (HandlerState.init "host" none true)).1.listenerTask = none ∧
    (connect "v2.1" (.parsed (.obj [("meta", .obj [])]))
        (HandlerState.init "host" none true)).2 = none ∧
    (connect "v2.1" (.parsed (.obj [("meta", .obj [])]))
        (HandlerState.init "host" none true)).1.listenerTask = some () := by
  have h1 := (c1_connect_version_check "v2.1" (HandlerState.init "host" none true)
      (.obj [("meta", .obj [("API-Version", .str "v2.0")])]) rfl).1
      (.obj [("API-Version", .str "v2.0")]) "v2.0" rfl rfl (by decide)
  have h2 := (c1_connect_version_check "v2.1" (HandlerState.init "host" none true)
      (.obj [("meta", .obj [])]) rfl).2.2 (.obj []) rfl rfl
  exact ⟨h1.1, h1.2, h2.1, h2.2⟩

/-- C2 counterexample: from the initial state (which satisfies the
invariant), a `connect()` that fails with a version mismatch after opening
the socket leaves the state Connected with the dispatch loop not running,
so the claimed invariant does not survive a partly-failed `connect()`. -/
theorem c2_invariant_broken_by_failed_connect :
    connInvariant (HandlerState.init "host" none true) ∧
    ¬ connInvariant (connect "v2.1"
        (.parsed (.obj [("meta", .obj [("API-Version", .str "v2.0")])]))
        (HandlerState.init "host" none true)).1 ∧
    (connect "v2.1" (.parsed (.obj [("meta", .obj [("API-Version", .str "v2.0")])]))
        (HandlerState.init "host" none true)).1.connected = true ∧
    loopRunning (connect "v2.1"
        (.parsed (.obj [("meta", .obj [("API-Version", .str "v2.0")])]))
        (HandlerState.init "host" none true)).1 = false ∧
    (connect "v2.1" (.parsed (.obj [("meta", .obj [("API-Version", .str "v2.0")])]))
        (HandlerState.init "host" none true)).2 =
      some (.mismatchedVersionError "v2.1" (.str "v2.0")) :=
  ⟨by decide, by decide, rfl, rfl, rfl⟩

/-- C2 amended: the invariant "the dispatch loop runs iff the state is
Connected" holds initially and is preserved by `disconnect()` and by any
`connect()` or `reconnect()` that returns without error or fails on the
already-connected check; it is not preserved by `connect()` calls that fail
after the socket was opened. -/
theorem c2_invariant_preservation (s : HandlerState) (h : connInvariant s) :
    (∀ hostname token tls, connInvariant (HandlerState.init hostname token tls)) ∧
    (∀ av hello, (connect av hello s).2 = none → connInvariant (connect av hello s).1) ∧
    (∀ av hello e, (connect av hello s).2 = some e → e.isNotConnected = true →
      connInvariant (connect av hello s).1) ∧
    connInvariant (disconnect s).1 ∧
    (∀ av hello hn tk tl, (reconnect av hello hn tk tl s).2 = none →
      connInvariant (reconnect av hello hn tk tl s).1) := by
  refine ⟨?_, ?_, ?_, ?_, ?_⟩
  · intro hostname token tls
    exact rfl
  · intro av hello hnone
    exact connect_none_inv av hello s hnone
  · intro av hello e hsome hnc
    rw [connect_notconn_unchanged av hello s e hsome hnc]
    exact h
  · exact disconnect_inv s h
  · intro av hello hn tk tl hnone
    unfold reconnect at hnone ⊢
    by_cases hc : s.connected = true
    · obtain ⟨hd2, -⟩ := disconnect_disconnected s h hc
      rw [if_pos hc] at hnone ⊢
      have hd : disconnect s = ((disconnect s).1, none) := by
        rw [← hd2]
      rw [hd] at hnone ⊢
      dsimp only at hnone ⊢
      exact connect_none_inv av hello _ hnone
    · rw [if_neg hc] at hnone ⊢
      dsimp only at hnone ⊢
      exact connect_none_inv av hello _ hnone

/-- C2 witness: the preservation cases applied at a concrete connected
state: a successful disconnect and a successful reconnect both restore the
invariant. -/
theorem c2_invariant_preservation_witness :
    connInvariant (disconnect
      { HandlerState.init "host" none true with
          connection := some { uri := "wss://host", host := "host", isOpen := true },
          listenerTask := some () }).1 ∧
    connInvariant (reconnect "v2.1" (.parsed (.obj [("meta", .obj [])]))
      none none none (HandlerState.init "host" none true)).1 := by
  have h := c2_invariant_preservation
    { HandlerState.init "host" none true with
        connection := some { uri := "wss://host", host := "host", isOpen := true },
        listenerTask := some () } (by decide)
  have h2 := c2_invariant_preservation (HandlerState.init "host" none true) (by decide)
  exact ⟨h.2.2.2.1, h2.2.2.2.2 "v2.1" (.parsed (.obj [("meta", .obj [])])) none none none rfl⟩

/-- C3 counterexample: a frame that parses to non-object JSON (here the
empty array) makes the loop body raise `AttributeError` at `data.keys()`,
past the loop's boundary: the dispatch loop dies and a subsequent valid
reply frame — which the loop alone would have filed — is never processed. -/
theorem c3_loop_killed_by_non_object_frame :
    handleFrame (.parsed (.arr [])) [uuid0] [] =
      .error (.attributeError "keys called on a non-dict frame") ∧
    runLoop [.parsed (.arr []), .parsed replyFrame0] [uuid0] [] =
      .error (.attributeError "keys called on a non-dict frame") ∧
    runLoop [.parsed replyFrame0] [uuid0] [] = .ok ([], [(uuid0, replyFrame0)]) :=
  ⟨rfl, rfl, rfl⟩

/-- C3 amended: the dispatch loop never raises past its own boundary on
frames that are unparseable, or parse to a JSON object that carries an
error status, lacks a usable request id (absent `meta`, absent
`request_id`, invalid UUID string), or is unattributable — every such frame
is skipped and all subsequent frames are still processed; frames parsing to
non-object JSON (or with non-object `meta`, or a non-string `request_id`)
instead kill the loop. -/
theorem c3_loop_survives_tame_frames (frames : List Frame) (waiting : List UUID)
    (responses : List (UUID × JValue))
    (h : ∀ f ∈ frames, tameFrame f = true) :
    ∃ p, runLoop frames waiting responses = .ok p := by
  induction frames generalizing waiting responses with
  | nil => exact ⟨(waiting, responses), rfl⟩
  | cons f fs ih =>
    obtain ⟨⟨w1, r1⟩, hf⟩ :=
      handleFrame_tame f waiting responses (h f (List.mem_cons_self f fs))
    have hrest := ih w1 r1 (fun g hg => h g (List.mem_cons_of_mem f hg))
    unfold runLoop
    rw [hf]
    exact hrest

/-- C3 amended witness: a malformed frame, an error-status frame and a
valid reply are all survived (and the reply still filed). -/
theorem c3_loop_survives_tame_frames_witness :
    ∃ p, runLoop [.malformed "not json", .parsed (.obj [("status", .num 500)]),
      .parsed replyFrame0] [uuid0] [] = .ok p :=
  c3_loop_survives_tame_frames
    [.malformed "not json", .parsed (.obj [("status", .num 500)]), .parsed replyFrame0]
    [uuid0] [] (by decide)

/-- C4: when the dispatch loop files the reply to a pending request id, the
next `_retrieve_response` for that id returns exactly the filed payload
and removes it from the response table; a second call for the same id fails
with the already-consumed-or-never-queued `APIError` instead of returning
the payload again. -/
theorem c4_retrieve_exactly_once
    (kvs : List (String × JValue)) (meta : JValue) (rid : String) (u : UUID)
    (waiting : List UUID) (responses : List (UUID × JValue))
    (hst : isErrorStatus (.obj kvs) = false)
    (hmeta : jGet (.obj kvs) "meta" = .found meta)
    (hrid : jGet meta "request_id" = .found (.str rid))
    (hu : parseUUID rid = some u) (hw : u ∈ waiting)
    (maxW maxW2 : Nat) (hmw : 0 < maxW) :
    handleFrame (.parsed (.obj kvs)) waiting responses =
      .ok (waiting.filter (fun x => x ≠ u), setKey responses u (.obj kvs)) ∧
    retrieveResponse (waiting.filter (fun x => x ≠ u)) (setKey responses u (.obj kvs)) u maxW =
      (.ok (.obj kvs),
        (waiting.filter (fun x => x ≠ u),
          (setKey responses u (.obj kvs)).filter (fun pr => pr.1 ≠ u)), 0) ∧
    retrieveResponse (waiting.filter (fun x => x ≠ u))
        ((setKey responses u (.obj kvs)).filter (fun pr => pr.1 ≠ u)) u maxW2 =
      (.error (.apiError ("Response " ++ uuidStr u ++ " already consumed or request never queued")),
        (waiting.filter (fun x => x ≠ u),
          (setKey responses u (.obj kvs)).filter (fun pr => pr.1 ≠ u)), 0) := by
  refine ⟨handleFrame_files kvs meta rid u waiting responses hst hmeta hrid hu hw, ?_, ?_⟩
  · exact retrieve_claims _ _ u (.obj kvs) maxW (not_mem_filter_ne waiting u)
      (lookupLast_setKey responses u (.obj kvs)) hmw
  · exact retrieve_unknown _ _ u maxW2 (not_mem_filter_ne waiting u)
      (keys_filter_not_mem (setKey responses u (.obj kvs)) u)

/-- C4 witness: the filed reply for `uuid0` is claimed exactly once. -/
theorem c4_retrieve_exactly_once_witness :
    retrieveResponse ([uuid0].filter (fun x => x ≠ uuid0))
        (setKey [] uuid0 (.obj replyKvs)) uuid0 600 =
      (.ok (.obj replyKvs),
        ([uuid0].filter (fun x => x ≠ uuid0),
          (setKey [] uuid0 (.obj replyKvs)).filter (fun pr => pr.1 ≠ uuid0)), 0) ∧
    (retrieveResponse ([uuid0].filter (fun x => x ≠ uuid0))
        ((setKey [] uuid0 (.obj replyKvs)).filter (fun pr => pr.1 ≠ uuid0)) uuid0 600).1 =
      .error (.apiError ("Response " ++ uuidStr uuid0 ++ " already consumed or request never queued")) := by
  have h := c4_retrieve_exactly_once replyKvs (.obj [("request_id", .str (uuidStr uuid0))])
    (uuidStr uuid0) uuid0 [uuid0] [] rfl rfl rfl rfl (by decide) 600 600 (by decide)
  exact ⟨h.2.1, by rw [h.2.2]⟩

/-- C5: a pending, never-answered request id makes `_retrieve_response`
fail with `TimeoutError` after exactly `max_wait` sleeps of one 10 ms tick
each — not before — and the default budget is 600 ticks (6 seconds); an id
in neither the waiting set nor the response table fails immediately with
the unknown-or-consumed `APIError`, after zero sleeps. -/
theorem c5_retrieve_timeout (waiting : List UUID) (responses : List (UUID × JValue))
    (u : UUID) (maxW : Nat) :
    (u ∈ waiting → retrieveResponse waiting responses u maxW =
      (.error (.timeoutError ("API took too long to respond to request " ++ uuidStr u)),
        (waiting, responses), maxW)) ∧
    (u ∉ waiting → u ∉ responses.map Prod.fst →
      retrieveResponse waiting responses u maxW =
        (.error (.apiError ("Response " ++ uuidStr u ++ " already consumed or request never queued")),
          (waiting, responses), 0)) ∧
    defaultMaxWait = 600 :=
  ⟨fun hw => retrieve_timeout_of_mem waiting responses u maxW hw,
    fun hw hr => retrieve_unknown waiting responses u maxW hw hr, rfl⟩

/-- C5 witness: with the default budget, a never-answered `uuid0` times out
after 600 ticks; an unknown id fails at once with zero ticks. -/
theorem c5_retrieve_timeout_witness :
    retrieveResponse [uuid0] [] uuid0 600 =
      (.error (.timeoutError ("API took too long to respond to request " ++ uuidStr uuid0)),
        ([uuid0], []), 600) ∧
    retrieveResponse [] [] uuid0 600 =
      (.error (.apiError ("Response " ++ uuidStr uuid0 ++ " already consumed or request never queued")),
        ([], []), 0) :=
  ⟨(c5_retrieve_timeout [uuid0] [] uuid0 600).1 (by decide),
    (c5_retrieve_timeout [] [] uuid0 600).2.1 (by decide) (by decide)⟩

/-- C6 counterexample: `connect()` on an already-connected handler raises
`NotConnectedError` — the very same exception class `disconnect()` raises on
a disconnected handler — with an "Already connected" message; the code has
no distinct AlreadyConnected error. -/
theorem c6_no_distinct_already_connected_error :
    (connect "v2.0" (.parsed .null) sConn0).2 =
      some (.notConnectedError (some "Already connected to a server: host")) ∧
    (disconnect (HandlerState.init "host" none true)).2 =
      some (.notConnectedError none) ∧
    ((connect "v2.0" (.parsed .null) sConn0).2.map PyErr.isNotConnected =
      (disconnect (HandlerState.init "host" none true)).2.map PyErr.isNotConnected) ∧
    (connect "v2.0" (.parsed .null) sConn0).1 = sConn0 :=
  ⟨rfl, rfl, rfl, rfl⟩

/-- C6 amended: when the state is already Connected, `connect()` fails by
raising `NotConnectedError` — the class disconnect also uses, with an
"Already connected to ..." message rather than a distinct AlreadyConnected
error — leaving the existing connection, dispatch loop and all other state
unchanged; `disconnect()` when not Connected raises `NotConnectedError`
with its default message, also leaving the state unchanged. -/
theorem c6_already_connected_behavior (s : HandlerState) (av : String) (hello : Frame) :
    (s.connected = true → connect av hello s =
      (s, some (.notConnectedError
        (some ("Already connected to a server: " ++ s.connHost))))) ∧
    (s.connected = false → disconnect s = (s, some (.notConnectedError none))) := by
  constructor
  · intro hc
    exact connect_already av hello s hc
  · intro hc
    unfold disconnect
    rw [if_neg (by simp [hc])]

/-- C6 witness at concrete states. -/
theorem c6_already_connected_behavior_witness :
    connect "v2.0" (.parsed .null) sConn0 =
      (sConn0, some (.notConnectedError
        (some ("Already connected to a server: " ++ sConn0.connHost)))) ∧
    disconnect (HandlerState.init "host" none true) =
      (HandlerState.init "host" none true, some (.notConnectedError none)) :=
  ⟨(c6_already_connected_behavior sConn0 "v2.0" (.parsed .null)).1 rfl,
    (c6_already_connected_behavior (HandlerState.init "host" none true) "v2.0"
      (.parsed .null)).2 rfl⟩

/-- C7 counterexample: `reconnect` silently ignores the explicitly provided
overrides `tls := false` and `token := ""` — the Python guards are
truthiness tests — and the new connection is still opened with the old TLS
scheme and the old bearer token. -/
theorem c7_reconnect_ignores_falsy_overrides :
    ((reconnect "v2.1" (.parsed (.obj [])) none none (some false)
        (HandlerState.init "host" (some "tok") true)).1.tls = true) ∧
    ((reconnect "v2.1" (.parsed (.obj [])) none (some "") none
        (HandlerState.init "host" (some "tok") true)).1.token = some "tok") ∧
    ((reconnect "v2.1" (.parsed (.obj [])) none none (some false)
        (HandlerState.init "host" (some "tok") true)).1.connection =
      some { uri := "wss://host/?bearer=tok", host := "host", isOpen := true }) :=
  ⟨rfl, rfl, rfl⟩

/-- C7 amended: `reconnect(hostname?, token?, tls?)` disconnects first if
connected, replaces exactly the truthy overrides (a non-empty hostname, a
non-empty token, `tls = true`), leaves falsy or omitted ones — including
`tls = false` and `token = ""` — unchanged, and then connects using the
resulting parameters. -/
theorem c7_reconnect_applies_truthy_overrides (av : String) (hello : Frame)
    (hn tk : Option String) (tl : Option Bool) (s : HandlerState)
    (hok : s.connected = false ∨ s.listenerTask = some ()) :
    (∀ v, hn = some v → v ≠ "" →
      (reconnect av hello hn tk tl s).1.hostname = v) ∧
    ((hn = none ∨ hn = some "") →
      (reconnect av hello hn tk tl s).1.hostname = s.hostname) ∧
    (∀ v, tk = some v → v ≠ "" →
      (reconnect av hello hn tk tl s).1.token = some v) ∧
    ((tk = none ∨ tk = some "") →
      (reconnect av hello hn tk tl s).1.token = s.token) ∧
    (tl = some true → (reconnect av hello hn tk tl s).1.tls = true) ∧
    ((tl = none ∨ tl = some false) →
      (reconnect av hello hn tk tl s).1.tls = s.tls) ∧
    (reconnect av hello hn tk tl s).1.connection =
      some { uri := buildUri (reconnect av hello hn tk tl s).1.hostname
                      (reconnect av hello hn tk tl s).1.token
                      (reconnect av hello hn tk tl s).1.tls,
             host := (reconnect av hello hn tk tl s).1.hostname, isOpen := true } := by
  obtain ⟨s1, hred, hs1c, hs1h, hs1tok, hs1tls⟩ :
      ∃ s1, reconnect av hello hn tk tl s = connect av hello (applyOverrides hn tk tl s1) ∧
        s1.connected = false ∧ s1.hostname = s.hostname ∧ s1.token = s.token ∧
        s1.tls = s.tls := by
    by_cases hc : s.connected = true
    · rcases hok with hc' | hl
      · rw [hc'] at hc; cases hc
      · refine ⟨{ s with listenerTask := none, connection := none }, ?_, rfl, rfl, rfl, rfl⟩
        unfold reconnect disconnect
        rw [if_pos hc, if_pos hc, hl]
    · have hc' : s.connected = false := by simpa using hc
      refine ⟨s, ?_, hc', rfl, rfl, rfl⟩
      unfold reconnect
      rw [if_neg hc]
  obtain ⟨hConn, hLT, hWR, hRR, hHost, hTok, hTls⟩ := applyOverrides_fields hn tk tl s1
  have hc4 : (applyOverrides hn tk tl s1).connected = false := by
    rw [connected_congr (applyOverrides hn tk tl s1) s1 hConn, hs1c]
  obtain ⟨hch, hct, hctls, -, -, hcconn, -, -⟩ :=
    connect_cases av hello (applyOverrides hn tk tl s1) hc4
  rw [hred]
  refine ⟨?_, ?_, ?_, ?_, ?_, ?_, ?_⟩
  · intro v hv hne
    subst hv
    rw [hch, hHost]
    dsimp only
    rw [if_neg hne]
  · intro hcase
    rcases hcase with h0 | h0 <;> subst h0 <;> rw [hch, hHost] <;> dsimp only
    · exact hs1h
    · rw [if_pos rfl]
      exact hs1h
  · intro v hv hne
    subst hv
    rw [hct, hTok]
    dsimp only
    rw [if_neg hne]
  · intro hcase
    rcases hcase with h0 | h0 <;> subst h0 <;> rw [hct, hTok] <;> dsimp only
    · exact hs1tok
    · rw [if_pos rfl]
      exact hs1tok
  · intro h0
    subst h0
    rw [hctls, hTls]
    simp
  · intro hcase
    rcases hcase with h0 | h0 <;> subst h0 <;> rw [hctls, hTls] <;> dsimp only
    · exact hs1tls
    · rw [if_neg Bool.false_ne_true]
      exact hs1tls
  · rw [hcconn, hch, hct, hctls]

/-- C7 witness: truthy overrides take effect and the connection is opened
with the updated parameters. -/
theorem c7_reconnect_applies_truthy_overrides_witness :
    ((reconnect "v2.1" (.parsed (.obj [])) (some "newhost") (some "newtok") (some true)
        (HandlerState.init "host" none false)).1.hostname = "newhost") ∧
    ((reconnect "v2.1" (.parsed (.obj [])) (some "newhost") (some "newtok") (some true)
        (HandlerState.init "host" none false)).1.token = some "newtok") ∧
    ((reconnect "v2.1" (.parsed (.obj [])) (some "newhost") (some "newtok") (some true)
        (HandlerState.init "host" none false)).1.tls = true) := by
  have h := c7_reconnect_applies_truthy_overrides "v2.1" (.parsed (.obj []))
    (some "newhost") (some "newtok") (some true) (HandlerState.init "host" none false)
    (Or.inl rfl)
  exact ⟨h.1 "newhost" rfl (by decide), h.2.2.1 "newtok" rfl (by decide), h.2.2.2.2.1 rfl⟩

/-- C8: `update_rescue` fails with `ValueError` ("missing identifier")
before consulting the call engine — hence before any frame is sent — when
the rescue has no case id; with a case id it delegates to
`call("rescues", "update", \x7b"id": ..., "data": rescue.json(full)\x7d)`
and returns the engine's reply verbatim; the v2.1 handler inherits this
behavior unchanged and differs only in its declared version string. -/
theorem c8_update_rescue (rescue : Rescue) (full : Bool) :
    (rescue.case_id = none → ∀ callEngine,
      updateRescue20 callEngine rescue full =
        .error (.valueError "Cannot send rescue without ID to the API")) ∧
    (∀ cid, rescue.case_id = some cid → ∀ callEngine,
      updateRescue20 callEngine rescue full =
        callEngine "rescues" "update" [("id", cid), ("data", rescue.json full)]) ∧
    (∀ callEngine r f, updateRescue21 callEngine r f = updateRescue20 callEngine r f) ∧
    apiVersion20 = "v2.0" ∧ apiVersion21 = "v2.1" ∧ apiVersion21 ≠ apiVersion20 := by
  refine ⟨?_, ?_, fun _ _ _ => rfl, rfl, rfl, by decide⟩
  · intro hnone callEngine
    unfold updateRescue20
    rw [hnone]
  · intro cid hsome callEngine
    unfold updateRescue20
    rw [hsome]

/-- C8 witness: an id-less rescue fails regardless of the engine; a rescue
with id 42 produces the expected call and passes the reply through. -/
theorem c8_update_rescue_witness :
    updateRescue20 (fun _ _ _ => .ok .null)
        { case_id := none, jsonFull := .null, jsonDiff := .null } true =
      .error (.valueError "Cannot send rescue without ID to the API") ∧
    updateRescue20 (fun _ _ p => .ok (.obj p))
        { case_id := some (.num 42), jsonFull := .str "full", jsonDiff := .str "diff" } true =
      .ok (.obj [("id", .num 42), ("data", .str "full")]) := by
  refine ⟨(c8_update_rescue _ true).1 rfl _, ?_⟩
  have h := (c8_update_rescue
    { case_id := some (.num 42), jsonFull := .str "full", jsonDiff := .str "diff" } true).2.1
    (.num 42) rfl (fun _ _ p => .ok (.obj p))
  rw [h]
  rfl

/-- C9: any identifier returned by the collision-check loop of `_request`
is distinct from every identifier in the waiting (pending) set and from
every identifier currently keyed in the response table — the state the loop
checks immediately before the id is stamped into the outbound envelope. -/
theorem c9_minted_id_fresh (gen : Nat → UUID) (waiting : List UUID)
    (responses : List (UUID × JValue)) (i fuel : Nat) (u : UUID)
    (h : mintRequestId gen waiting responses i fuel = some u) :
    u ∉ waiting ∧ u ∉ responses.map Prod.fst := by
  induction fuel generalizing i with
  | zero => cases h
  | succ n ih =>
    unfold mintRequestId at h
    by_cases hmem : gen i ∈ waiting ∨ gen i ∈ responses.map Prod.fst
    · rw [if_pos hmem] at h
      exact ih _ h
    · rw [if_neg hmem] at h
      cases h
      push_neg at hmem
      exact hmem

/-- C9 witness: with a generator whose first draw collides with the pending
set, the mint loop redraws and the returned id is fresh for both tables. -/
theorem c9_minted_id_fresh_witness :
    ("bbbbbbbbbbbbbbbbbbbbbbbbbbbbbbbb" : UUID) ∉ [uuid0] ∧
    ("bbbbbbbbbbbbbbbbbbbbbbbbbbbbbbbb" : UUID) ∉
      ([] : List (UUID × JValue)).map Prod.fst :=
  c9_minted_id_fresh
    (fun n => if n = 0 then uuid0 else "bbbbbbbbbbbbbbbbbbbbbbbbbbbbbbbb")
    [uuid0] [] 0 2 "bbbbbbbbbbbbbbbbbbbbbbbbbbbbbbbb" (by decide)

/-- C10: a `_retrieve_response` that fails with `TimeoutError` leaves both
tables untouched — in particular the request id stays in the waiting set —
so the dispatch loop still files a matching reply that arrives after the
timeout into the response table, where it sits unclaimed. -/
theorem c10_timeout_leaves_request_pending
    (waiting : List UUID) (responses : List (UUID × JValue)) (u : UUID)
    (maxW : Nat) (hw : u ∈ waiting)
    (kvs : List (String × JValue)) (meta : JValue) (rid : String)
    (hst : isErrorStatus (.obj kvs) = false)
    (hmeta : jGet (.obj kvs) "meta" = .found meta)
    (hrid : jGet meta "request_id" = .found (.str rid))
    (hu : parseUUID rid = some u) :
    retrieveResponse waiting responses u maxW =
      (.error (.timeoutError ("API took too long to respond to request " ++ uuidStr u)),
        (waiting, responses), maxW) ∧
    handleFrame (.parsed (.obj kvs)) waiting responses =
      .ok (waiting.filter (fun x => x ≠ u), setKey responses u (.obj kvs)) ∧
    lookupLast (setKey responses u (.obj kvs)) u = some (.obj kvs) :=
  ⟨retrieve_timeout_of_mem waiting responses u maxW hw,
    handleFrame_files kvs meta rid u waiting responses hst hmeta hrid hu hw,
    lookupLast_setKey responses u (.obj kvs)⟩

/-- C10 witness: `uuid0` times out, stays pending, and the late reply is
still filed. -/
theorem c10_timeout_leaves_request_pending_witness :
    retrieveResponse [uuid0] [] uuid0 600 =
      (.error (.timeoutError ("API took too long to respond to request " ++ uuidStr uuid0)),
        ([uuid0], []), 600) ∧
    handleFrame (.parsed (.obj replyKvs)) [uuid0] [] =
      .ok ([uuid0].filter (fun x => x ≠ uuid0), setKey [] uuid0 (.obj replyKvs)) ∧
    lookupLast (setKey [] uuid0 (.obj replyKvs)) uuid0 = some (.obj replyKvs) :=
  c10_timeout_leaves_request_pending [uuid0] [] uuid0 600 (by decide)
    replyKvs (.obj [("request_id", .str (uuidStr uuid0))]) (uuidStr uuid0)
    rfl rfl rfl rfl
